import Mathlib

/-
Verification of the realsense2 YARP device adapter
(src/devices/realsense2/realsense2Driver.cpp).

The development shallowly embeds the driver's pure decision logic:
vendor enums, the pixel-format tables, the image-conversion routine
getImage, the sensor-option get/set helpers, the camera-feature
surface (hasFeature, setFeature, getFeature, hasOnOff, setActive,
getActive, setMode, getMode), the pipeline / resolution-change
lifecycle, and an exception-flow model of the try/catch structure of
the SDK call sites.
-/

namespace Realsense2

/-- The librealsense `rs2_format` enumeration (librealsense2/h/rs_sensor.h).
`RS2_FORMAT_SIXDOF` stands for the C identifier `RS2_FORMAT_6DOF`, which is
not a legal Lean name. -/
inductive Rs2Format where
  | RS2_FORMAT_ANY
  | RS2_FORMAT_Z16
  | RS2_FORMAT_DISPARITY16
  | RS2_FORMAT_XYZ32F
  | RS2_FORMAT_YUYV
  | RS2_FORMAT_RGB8
  | RS2_FORMAT_BGR8
  | RS2_FORMAT_RGBA8
  | RS2_FORMAT_BGRA8
  | RS2_FORMAT_Y8
  | RS2_FORMAT_Y16
  | RS2_FORMAT_RAW10
  | RS2_FORMAT_RAW16
  | RS2_FORMAT_RAW8
  | RS2_FORMAT_UYVY
  | RS2_FORMAT_MOTION_RAW
  | RS2_FORMAT_MOTION_XYZ32F
  | RS2_FORMAT_GPIO_RAW
  | RS2_FORMAT_SIXDOF
  | RS2_FORMAT_DISPARITY32
  deriving DecidableEq

/-- The YARP pixel-type vocab codes used by the driver (yarp/sig/Image.h);
only the codes that `pixFormatToCode` can produce, plus the codes a caller
may have stored in a destination image beforehand. -/
inductive VocabPixel where
  | VOCAB_PIXEL_INVALID
  | VOCAB_PIXEL_RGB
  | VOCAB_PIXEL_BGR
  | VOCAB_PIXEL_MONO16
  | VOCAB_PIXEL_RGBA
  | VOCAB_PIXEL_BGRA
  | VOCAB_PIXEL_MONO
  deriving DecidableEq

/-- Embedding of the static `pixFormatToCode` table
(realsense2Driver.cpp lines 147-184). -/
def pixFormatToCode : Rs2Format → VocabPixel
  | Rs2Format.RS2_FORMAT_RGB8 => VocabPixel.VOCAB_PIXEL_RGB
  | Rs2Format.RS2_FORMAT_BGR8 => VocabPixel.VOCAB_PIXEL_BGR
  | Rs2Format.RS2_FORMAT_Z16 => VocabPixel.VOCAB_PIXEL_MONO16
  | Rs2Format.RS2_FORMAT_DISPARITY16 => VocabPixel.VOCAB_PIXEL_MONO16
  | Rs2Format.RS2_FORMAT_RGBA8 => VocabPixel.VOCAB_PIXEL_RGBA
  | Rs2Format.RS2_FORMAT_BGRA8 => VocabPixel.VOCAB_PIXEL_BGRA
  | Rs2Format.RS2_FORMAT_Y8 => VocabPixel.VOCAB_PIXEL_MONO
  | Rs2Format.RS2_FORMAT_Y16 => VocabPixel.VOCAB_PIXEL_MONO16
  | Rs2Format.RS2_FORMAT_RAW16 => VocabPixel.VOCAB_PIXEL_MONO16
  | Rs2Format.RS2_FORMAT_RAW8 => VocabPixel.VOCAB_PIXEL_MONO
  | _ => VocabPixel.VOCAB_PIXEL_INVALID

/-- Embedding of the static `bytesPerPixel` table
(realsense2Driver.cpp lines 186-213); unknown formats give 0. -/
def bytesPerPixel : Rs2Format → Nat
  | Rs2Format.RS2_FORMAT_RAW8 => 1
  | Rs2Format.RS2_FORMAT_Y8 => 1
  | Rs2Format.RS2_FORMAT_Z16 => 2
  | Rs2Format.RS2_FORMAT_DISPARITY16 => 2
  | Rs2Format.RS2_FORMAT_Y16 => 2
  | Rs2Format.RS2_FORMAT_RAW16 => 2
  | Rs2Format.RS2_FORMAT_RGB8 => 3
  | Rs2Format.RS2_FORMAT_BGR8 => 3
  | Rs2Format.RS2_FORMAT_RGBA8 => 4
  | Rs2Format.RS2_FORMAT_BGRA8 => 4
  | _ => 0

/-- Per-pixel byte size the YARP image types associate with each vocab
pixel code (yarp/sig/Image.h); used by `FlexImage.getRawImageSize`. -/
def pixelSize : VocabPixel → Nat
  | VocabPixel.VOCAB_PIXEL_INVALID => 0
  | VocabPixel.VOCAB_PIXEL_RGB => 3
  | VocabPixel.VOCAB_PIXEL_BGR => 3
  | VocabPixel.VOCAB_PIXEL_MONO16 => 2
  | VocabPixel.VOCAB_PIXEL_RGBA => 4
  | VocabPixel.VOCAB_PIXEL_BGRA => 4
  | VocabPixel.VOCAB_PIXEL_MONO => 1

/-- A stream resolution (the width/height part of an intrinsics record). -/
structure Res where
  width : Nat
  height : Nat
  deriving DecidableEq

/-- The observable fields of a `yarp::sig::FlexImage` destination that the
driver's conversion routine touches: pixel code and dimensions.  Row padding
is not modelled (raw size is width * height * pixelSize). -/
structure FlexImage where
  pixelCode : VocabPixel
  width : Nat
  height : Nat
  deriving DecidableEq

def FlexImage.setPixelCode (img : FlexImage) (c : VocabPixel) : FlexImage :=
  { img with pixelCode := c }

def FlexImage.resize (img : FlexImage) (w h : Nat) : FlexImage :=
  { img with width := w, height := h }

def FlexImage.getRawImageSize (img : FlexImage) : Nat :=
  img.width * img.height * pixelSize img.pixelCode

/-- The data of a vendor video frame that `getImage` inspects. -/
structure VideoFrame where
  format : Rs2Format
  width : Nat
  height : Nat
  deriving DecidableEq

/-- Result of the color conversion routine: the boolean return value, the
final state of the destination image, and whether the memcpy and the
stamp update were reached. -/
structure RgbCaptureResult where
  ret : Bool
  dest : FlexImage
  copied : Bool
  stampUpdated : Bool
  deriving DecidableEq

/-- Embedding of `realsense2Driver::getImage(FlexImage&, Stamp*, rs2::frameset&)`
(realsense2Driver.cpp lines 682-709).  `colorIntrin` is `m_color_intrin`:
the destination is resized to the intrinsics dimensions, while the byte
count to write is computed from the frame's own dimensions. -/
def getImage (colorIntrin : Res) (frame : VideoFrame) (dest : FlexImage) : RgbCaptureResult :=
  let pixCode := pixFormatToCode frame.format
  let memToWrt := frame.width * frame.height * bytesPerPixel frame.format
  if pixCode = VocabPixel.VOCAB_PIXEL_INVALID then
    { ret := false, dest := dest, copied := false, stampUpdated := false }
  else
    let dest1 := (dest.setPixelCode pixCode).resize colorIntrin.width colorIntrin.height
    if dest1.getRawImageSize ≠ memToWrt then
      { ret := false, dest := dest1, copied := false, stampUpdated := false }
    else
      { ret := true, dest := dest1, copied := true, stampUpdated := true }

/-- The librealsense sensor options the driver touches. -/
inductive RsOption where
  | RS2_OPTION_EXPOSURE
  | RS2_OPTION_GAIN
  | RS2_OPTION_WHITE_BALANCE
  | RS2_OPTION_SHARPNESS
  | RS2_OPTION_HUE
  | RS2_OPTION_SATURATION
  | RS2_OPTION_ENABLE_AUTO_EXPOSURE
  | RS2_OPTION_ENABLE_AUTO_WHITE_BALANCE
  | RS2_OPTION_ACCURACY
  | RS2_OPTION_MIN_DISTANCE
  | RS2_OPTION_MAX_DISTANCE
  deriving DecidableEq

/-- State of a vendor sensor as seen through `rs2::sensor::supports`,
`get_option` and `set_option`.  Option values are rationals (the driver
only ever compares them against 0.0 and 1.0).  The throw flags model
the hardware raising `rs2::error` on a given option call. -/
structure Sensor where
  supports : RsOption → Bool
  values : RsOption → Rat
  setThrows : RsOption → Bool
  getThrows : RsOption → Bool

/-- Embedding of the static helper `setOption` (realsense2Driver.cpp lines
88-116): null-sensor check, supports check, then a try/catch around
`set_option`.  Returns the boolean result and the (possibly updated)
sensor. -/
def setOption (s : Option Sensor) (opt : RsOption) (value : Rat) : Bool × Option Sensor :=
  match s with
  | none => (false, none)
  | some sen =>
    if sen.supports opt = false then (false, some sen)
    else if sen.setThrows opt = true then (false, some sen)
    else (true, some { sen with values := fun o => if o = opt then value else sen.values o })

/-- Embedding of the static helper `getOption` (realsense2Driver.cpp lines
118-145).  `none` means the call returned false (and the caller's output
variable kept its previous value). -/
def getOption (s : Option Sensor) (opt : RsOption) : Option Rat :=
  match s with
  | none => none
  | some sen =>
    if sen.supports opt = false then none
    else if sen.getThrows opt = true then none
    else some (sen.values opt)

/-- The YARP `cameraFeature_id_t` enumeration values
(yarp/dev/FrameGrabberControl2.h, external middleware header). -/
def YARP_FEATURE_BRIGHTNESS : Int := 0

def YARP_FEATURE_EXPOSURE : Int := 1

def YARP_FEATURE_SHARPNESS : Int := 2

def YARP_FEATURE_WHITE_BALANCE : Int := 3

def YARP_FEATURE_HUE : Int := 4

def YARP_FEATURE_SATURATION : Int := 5

def YARP_FEATURE_GAIN : Int := 8

def YARP_FEATURE_FRAME_RATE : Int := 15

def YARP_FEATURE_MIRROR : Int := 22

def YARP_FEATURE_NUMBER_OF : Int := 23

/-- The `m_supportedFeatures` vector filled in the constructor
(realsense2Driver.cpp lines 239-245), in insertion order. -/
def m_supportedFeatures : List Int :=
  [YARP_FEATURE_EXPOSURE, YARP_FEATURE_WHITE_BALANCE, YARP_FEATURE_GAIN,
   YARP_FEATURE_FRAME_RATE, YARP_FEATURE_SHARPNESS, YARP_FEATURE_HUE,
   YARP_FEATURE_SATURATION]

/-- Embedding of `realsense2Driver::hasFeature` (lines 767-786).
`none` models the function returning false (identifier out of range);
`some b` models success with `*hasFeature = b` (the `std::find` over
`m_supportedFeatures`). -/
def hasFeature (feature : Int) : Option Bool :=
  if feature < YARP_FEATURE_BRIGHTNESS ∨ feature > YARP_FEATURE_NUMBER_OF - 1 then none
  else some (m_supportedFeatures.contains feature)

/-- Embedding of `realsense2Driver::hasOnOff` (lines 884-901): gated on
`hasFeature`, then a fixed table answering true exactly for
white balance and mirror. -/
def hasOnOff (feature : Int) : Option Bool :=
  match hasFeature feature with
  | some true =>
    if feature = YARP_FEATURE_WHITE_BALANCE ∨ feature = YARP_FEATURE_MIRROR then some true
    else some false
  | _ => none

/-- Result of a feature-setting call: return value, resulting color
sensor, and the list of sensor-option writes attempted. -/
structure SetFeatureResult where
  ret : Bool
  sensor : Option Sensor
  writes : List (RsOption × Rat)
  deriving Inhabited

/-- Embedding of `realsense2Driver::setFeature(int, double)`
(lines 788-828): guard on `hasFeature`, then dispatch by feature
identifier to `setOption` on the color sensor; frame rate is a stub
returning false with no option call. -/
def setFeature (s : Option Sensor) (feature : Int) (value : Rat) : SetFeatureResult :=
  match hasFeature feature with
  | some true =>
    if feature = YARP_FEATURE_EXPOSURE then
      { ret := (setOption s RsOption.RS2_OPTION_EXPOSURE value).fst,
        sensor := (setOption s RsOption.RS2_OPTION_EXPOSURE value).snd,
        writes := [(RsOption.RS2_OPTION_EXPOSURE, value)] }
    else if feature = YARP_FEATURE_GAIN then
      { ret := (setOption s RsOption.RS2_OPTION_GAIN value).fst,
        sensor := (setOption s RsOption.RS2_OPTION_GAIN value).snd,
        writes := [(RsOption.RS2_OPTION_GAIN, value)] }
    else if feature = YARP_FEATURE_FRAME_RATE then
      { ret := false, sensor := s, writes := [] }
    else if feature = YARP_FEATURE_WHITE_BALANCE then
      { ret := (setOption s RsOption.RS2_OPTION_WHITE_BALANCE value).fst,
        sensor := (setOption s RsOption.RS2_OPTION_WHITE_BALANCE value).snd,
        writes := [(RsOption.RS2_OPTION_WHITE_BALANCE, value)] }
    else if feature = YARP_FEATURE_SHARPNESS then
      { ret := (setOption s RsOption.RS2_OPTION_SHARPNESS value).fst,
        sensor := (setOption s RsOption.RS2_OPTION_SHARPNESS value).snd,
        writes := [(RsOption.RS2_OPTION_SHARPNESS, value)] }
    else if feature = YARP_FEATURE_HUE then
      { ret := (setOption s RsOption.RS2_OPTION_HUE value).fst,
        sensor := (setOption s RsOption.RS2_OPTION_HUE value).snd,
        writes := [(RsOption.RS2_OPTION_HUE, value)] }
    else if feature = YARP_FEATURE_SATURATION then
      { ret := (setOption s RsOption.RS2_OPTION_SATURATION value).fst,
        sensor := (setOption s RsOption.RS2_OPTION_SATURATION value).snd,
        writes := [(RsOption.RS2_OPTION_SATURATION, value)] }
    else { ret := false, sensor := s, writes := [] }
  | _ => { ret := false, sensor := s, writes := [] }

/-- Result of a feature read: return value, the value stored through the
caller's out-parameter (always `none`: the source never stores through
it, see `getFeature`), and the list of sensor-option reads attempted. -/
structure GetFeatureResult where
  ret : Bool
  value : Option Rat
  reads : List RsOption
  deriving DecidableEq

/-- Embedding of `realsense2Driver::getFeature(int, double*)`
(lines 830-870).  The source passes `(float&) value` to `getOption`
where `value` is the `double*` parameter itself: the cast reinterprets
the local pointer variable as a float, so the option readback is
written over the pointer copy and the caller's double is never stored
to.  The `value` field therefore stays `none` on every path, including
success. -/
def getFeature (s : Option Sensor) (feature : Int) : GetFeatureResult :=
  match hasFeature feature with
  | some true =>
    if feature = YARP_FEATURE_EXPOSURE then
      match getOption s RsOption.RS2_OPTION_EXPOSURE with
      | some _ => { ret := true, value := none, reads := [RsOption.RS2_OPTION_EXPOSURE] }
      | none => { ret := false, value := none, reads := [RsOption.RS2_OPTION_EXPOSURE] }
    else if feature = YARP_FEATURE_GAIN then
      match getOption s RsOption.RS2_OPTION_GAIN with
      | some _ => { ret := true, value := none, reads := [RsOption.RS2_OPTION_GAIN] }
      | none => { ret := false, value := none, reads := [RsOption.RS2_OPTION_GAIN] }
    else if feature = YARP_FEATURE_FRAME_RATE then
      { ret := false, value := none, reads := [] }
    else if feature = YARP_FEATURE_WHITE_BALANCE then
      match getOption s RsOption.RS2_OPTION_WHITE_BALANCE with
      | some _ => { ret := true, value := none, reads := [RsOption.RS2_OPTION_WHITE_BALANCE] }
      | none => { ret := false, value := none, reads := [RsOption.RS2_OPTION_WHITE_BALANCE] }
    else if feature = YARP_FEATURE_SHARPNESS then
      match getOption s RsOption.RS2_OPTION_SHARPNESS with
      | some _ => { ret := true, value := none, reads := [RsOption.RS2_OPTION_SHARPNESS] }
      | none => { ret := false, value := none, reads := [RsOption.RS2_OPTION_SHARPNESS] }
    else if feature = YARP_FEATURE_HUE then
      match getOption s RsOption.RS2_OPTION_HUE with
      | some _ => { ret := true, value := none, reads := [RsOption.RS2_OPTION_HUE] }
      | none => { ret := false, value := none, reads := [RsOption.RS2_OPTION_HUE] }
    else if feature = YARP_FEATURE_SATURATION then
      match getOption s RsOption.RS2_OPTION_SATURATION with
      | some _ => { ret := true, value := none, reads := [RsOption.RS2_OPTION_SATURATION] }
      | none => { ret := false, value := none, reads := [RsOption.RS2_OPTION_SATURATION] }
    else { ret := false, value := none, reads := [] }
  | _ => { ret := false, value := none, reads := [] }

/-- Result of `setActive`: return value, resulting color sensor, and the
sensor-option writes attempted. -/
structure SetActiveResult where
  ret : Bool
  sensor : Option Sensor
  writes : List (RsOption × Rat)

/-- Embedding of `realsense2Driver::setActive` (lines 903-931): gated on
`hasFeature` and then on `hasOnOff`, then a switch forwarding
`(float) onoff` to the enable-auto option. -/
def setActive (s : Option Sensor) (feature : Int) (onoff : Bool) : SetActiveResult :=
  match hasFeature feature with
  | some true =>
    match hasOnOff feature with
    | some true =>
      if feature = YARP_FEATURE_WHITE_BALANCE then
        { ret := (setOption s RsOption.RS2_OPTION_ENABLE_AUTO_WHITE_BALANCE (if onoff then 1 else 0)).fst,
          sensor := (setOption s RsOption.RS2_OPTION_ENABLE_AUTO_WHITE_BALANCE (if onoff then 1 else 0)).snd,
          writes := [(RsOption.RS2_OPTION_ENABLE_AUTO_WHITE_BALANCE, if onoff then 1 else 0)] }
      else if feature = YARP_FEATURE_EXPOSURE then
        { ret := (setOption s RsOption.RS2_OPTION_ENABLE_AUTO_EXPOSURE (if onoff then 1 else 0)).fst,
          sensor := (setOption s RsOption.RS2_OPTION_ENABLE_AUTO_EXPOSURE (if onoff then 1 else 0)).snd,
          writes := [(RsOption.RS2_OPTION_ENABLE_AUTO_EXPOSURE, if onoff then 1 else 0)] }
      else { ret := false, sensor := s, writes := [] }
    | _ => { ret := false, sensor := s, writes := [] }
  | _ => { ret := false, sensor := s, writes := [] }

/-- Result of `getActive`: return value, the boolean stored through the
caller's out-parameter (always `none`: the source never stores through
it, see `getActive`), and the sensor-option reads attempted. -/
structure GetActiveResult where
  ret : Bool
  isActive : Option Bool
  reads : List RsOption
  deriving DecidableEq

/-- Embedding of `realsense2Driver::getActive` (lines 933-960).  The
source passes `(float&) isActive` to `getOption` where `isActive` is
the `bool*` parameter itself: the cast reinterprets the local pointer
variable as a float, so the option readback is written over the pointer
copy and the caller's bool is never stored to.  The `isActive` field
therefore stays `none` on every path, including success. -/
def getActive (s : Option Sensor) (feature : Int) : GetActiveResult :=
  match hasFeature feature with
  | some true =>
    match hasOnOff feature with
    | some true =>
      if feature = YARP_FEATURE_WHITE_BALANCE then
        match getOption s RsOption.RS2_OPTION_ENABLE_AUTO_WHITE_BALANCE with
        | some _ => { ret := true, isActive := none,
                      reads := [RsOption.RS2_OPTION_ENABLE_AUTO_WHITE_BALANCE] }
        | none => { ret := false, isActive := none,
                    reads := [RsOption.RS2_OPTION_ENABLE_AUTO_WHITE_BALANCE] }
      else if feature = YARP_FEATURE_EXPOSURE then
        match getOption s RsOption.RS2_OPTION_ENABLE_AUTO_EXPOSURE with
        | some _ => { ret := true, isActive := none,
                      reads := [RsOption.RS2_OPTION_ENABLE_AUTO_EXPOSURE] }
        | none => { ret := false, isActive := none,
                    reads := [RsOption.RS2_OPTION_ENABLE_AUTO_EXPOSURE] }
      else { ret := false, isActive := none, reads := [] }
    | _ => { ret := false, isActive := none, reads := [] }
  | _ => { ret := false, isActive := none, reads := [] }

/-- The YARP `FeatureMode` enumeration values used by the driver. -/
inductive FeatureMode where
  | MODE_UNKNOWN
  | MODE_MANUAL
  | MODE_AUTO
  deriving DecidableEq

/-- Result of `setMode`: return value, resulting color sensor, and the
sensor-option writes attempted. -/
structure SetModeResult where
  ret : Bool
  sensor : Option Sensor
  writes : List (RsOption × Rat)

/-- Embedding of `realsense2Driver::setMode` (lines 1013-1060): gated on
`hasFeature` only; white balance and exposure translate AUTO/MANUAL to
writing 1.0/0.0 into the enable-auto option; every other feature (and
MODE_UNKNOWN) fails without touching the sensor. -/
def setMode (s : Option Sensor) (feature : Int) (mode : FeatureMode) : SetModeResult :=
  match hasFeature feature with
  | some true =>
    if feature = YARP_FEATURE_WHITE_BALANCE then
      match mode with
      | FeatureMode.MODE_AUTO =>
        { ret := (setOption s RsOption.RS2_OPTION_ENABLE_AUTO_WHITE_BALANCE 1).fst,
          sensor := (setOption s RsOption.RS2_OPTION_ENABLE_AUTO_WHITE_BALANCE 1).snd,
          writes := [(RsOption.RS2_OPTION_ENABLE_AUTO_WHITE_BALANCE, 1)] }
      | FeatureMode.MODE_MANUAL =>
        { ret := (setOption s RsOption.RS2_OPTION_ENABLE_AUTO_WHITE_BALANCE 0).fst,
          sensor := (setOption s RsOption.RS2_OPTION_ENABLE_AUTO_WHITE_BALANCE 0).snd,
          writes := [(RsOption.RS2_OPTION_ENABLE_AUTO_WHITE_BALANCE, 0)] }
      | FeatureMode.MODE_UNKNOWN => { ret := false, sensor := s, writes := [] }
    else if feature = YARP_FEATURE_EXPOSURE then
      match mode with
      | FeatureMode.MODE_AUTO =>
        { ret := (setOption s RsOption.RS2_OPTION_ENABLE_AUTO_EXPOSURE 1).fst,
          sensor := (setOption s RsOption.RS2_OPTION_ENABLE_AUTO_EXPOSURE 1).snd,
          writes := [(RsOption.RS2_OPTION_ENABLE_AUTO_EXPOSURE, 1)] }
      | FeatureMode.MODE_MANUAL =>
        { ret := (setOption s RsOption.RS2_OPTION_ENABLE_AUTO_EXPOSURE 0).fst,
          sensor := (setOption s RsOption.RS2_OPTION_ENABLE_AUTO_EXPOSURE 0).snd,
          writes := [(RsOption.RS2_OPTION_ENABLE_AUTO_EXPOSURE, 0)] }
      | FeatureMode.MODE_UNKNOWN => { ret := false, sensor := s, writes := [] }
    else { ret := false, sensor := s, writes := [] }
  | _ => { ret := false, sensor := s, writes := [] }

/-- Result of `getMode`: return value, the mode written to the output
parameter (`none` when the early feature guard fails and the output is
never written), and the sensor-option reads attempted. -/
structure GetModeResult where
  ret : Bool
  mode : Option FeatureMode
  reads : List RsOption
  deriving DecidableEq

/-- Embedding of `realsense2Driver::getMode` (lines 1062-1096).  The local
`res` starts at 0.0 and is only overwritten when the white-balance or
exposure branch reads its enable-auto option successfully; the mode is
then decoded as 0.0 to MANUAL, 1.0 to AUTO, anything else UNKNOWN. -/
def getMode (s : Option Sensor) (feature : Int) : GetModeResult :=
  match hasFeature feature with
  | some true =>
    let probe : Bool × Rat × List RsOption :=
      if feature = YARP_FEATURE_WHITE_BALANCE then
        match getOption s RsOption.RS2_OPTION_ENABLE_AUTO_WHITE_BALANCE with
        | some v => (true, v, [RsOption.RS2_OPTION_ENABLE_AUTO_WHITE_BALANCE])
        | none => (false, 0, [RsOption.RS2_OPTION_ENABLE_AUTO_WHITE_BALANCE])
      else if feature = YARP_FEATURE_EXPOSURE then
        match getOption s RsOption.RS2_OPTION_ENABLE_AUTO_EXPOSURE with
        | some v => (true, v, [RsOption.RS2_OPTION_ENABLE_AUTO_EXPOSURE])
        | none => (false, 0, [RsOption.RS2_OPTION_ENABLE_AUTO_EXPOSURE])
      else (true, 0, [])
    { ret := probe.fst,
      mode := some (if probe.snd.fst = 0 then FeatureMode.MODE_MANUAL
                    else if probe.snd.fst = 1 then FeatureMode.MODE_AUTO
                    else FeatureMode.MODE_UNKNOWN),
      reads := probe.snd.snd }
  | _ => { ret := false, mode := none, reads := [] }

/-- The enable-auto option corresponding to a feature with an auto toggle
(white balance or exposure); helper for stating the mode round-trip. -/
def autoOptionOf (feature : Int) : RsOption :=
  if feature = YARP_FEATURE_WHITE_BALANCE then RsOption.RS2_OPTION_ENABLE_AUTO_WHITE_BALANCE
  else RsOption.RS2_OPTION_ENABLE_AUTO_EXPOSURE

/-- The two streams the driver configures. -/
inductive Rs2Stream where
  | RS2_STREAM_COLOR
  | RS2_STREAM_DEPTH
  deriving DecidableEq

/-- The shared `rs2::config` object `m_cfg`: the last resolution requested
for each stream via `enable_stream` (the formats are fixed at RGB8 and
Z16 at every call site). -/
structure StreamConfig where
  colorRes : Res
  depthRes : Res
  deriving DecidableEq

/-- The driver state the resolution and lifecycle operations touch:
the shared stream configuration, whether the pipeline is running, the
active profile resolutions, and the recorded intrinsics dimensions
`m_color_intrin` / `m_depth_intrin`. -/
structure DriverState where
  cfg : StreamConfig
  running : Bool
  activeColor : Res
  activeDepth : Res
  colorIntrin : Res
  depthIntrin : Res
  deriving DecidableEq

/-- Environment for pipeline operations: whether `rs2::pipeline::start`
would throw for a given configuration, and whether `stop` would throw. -/
structure PipelineEnv where
  startFails : StreamConfig → Bool
  stopFails : Bool

/-- Embedding of `rs2::config::enable_stream` as used by the driver:
records the requested resolution for the given stream in `m_cfg`. -/
def enable_stream (st : DriverState) (stream : Rs2Stream) (width height : Nat) : DriverState :=
  match stream with
  | Rs2Stream.RS2_STREAM_COLOR =>
    { st with cfg := { st.cfg with colorRes := { width := width, height := height } } }
  | Rs2Stream.RS2_STREAM_DEPTH =>
    { st with cfg := { st.cfg with depthRes := { width := width, height := height } } }

/-- Embedding of `realsense2Driver::pipelineStartup` (lines 259-271):
try/catch around `m_pipeline.start(m_cfg)`.  On success the active
profile resolutions become the configured ones. -/
def pipelineStartup (env : PipelineEnv) (st : DriverState) : Bool × DriverState :=
  if env.startFails st.cfg then (false, st)
  else (true, { st with running := true, activeColor := st.cfg.colorRes,
                        activeDepth := st.cfg.depthRes })

/-- Embedding of `realsense2Driver::pipelineShutdown` (lines 273-285):
try/catch around `m_pipeline.stop()`. -/
def pipelineShutdown (env : PipelineEnv) (st : DriverState) : Bool × DriverState :=
  if env.stopFails then (false, st) else (true, { st with running := false })

/-- Embedding of `realsense2Driver::updateTransformations` (lines 356-366):
the recorded intrinsics take the active profile's dimensions. -/
def updateTransformations (st : DriverState) : DriverState :=
  { st with colorIntrin := st.activeColor, depthIntrin := st.activeDepth }

/-- Result of a resolution-change call: return value, resulting driver
state, and the `enable_stream` requests issued, in order. -/
structure ResolutionChangeResult where
  ret : Bool
  st : DriverState
  enables : List (Rs2Stream × Nat × Nat)
  deriving DecidableEq

/-- Embedding of `realsense2Driver::setDepthResolution` (lines 506-519):
re-enable the color stream at the recorded `m_color_intrin` resolution
and the depth stream at the requested one, then stop, restart, and
recompute the transformations. -/
def setDepthResolution (env : PipelineEnv) (st : DriverState) (width height : Nat) :
    ResolutionChangeResult :=
  let st1 := enable_stream st Rs2Stream.RS2_STREAM_COLOR st.colorIntrin.width st.colorIntrin.height
  let st2 := enable_stream st1 Rs2Stream.RS2_STREAM_DEPTH width height
  let enables := [(Rs2Stream.RS2_STREAM_COLOR, st.colorIntrin.width, st.colorIntrin.height),
                  (Rs2Stream.RS2_STREAM_DEPTH, width, height)]
  match pipelineShutdown env st2 with
  | (false, st3) => { ret := false, st := st3, enables := enables }
  | (true, st3) =>
    match pipelineStartup env st3 with
    | (false, st4) => { ret := false, st := st4, enables := enables }
    | (true, st4) => { ret := true, st := updateTransformations st4, enables := enables }

/-- Embedding of `realsense2Driver::setRgbResolution` (lines 521-534):
re-enable the color stream at the requested resolution and the depth
stream at the recorded `m_depth_intrin` resolution, then stop, restart,
and recompute the transformations. -/
def setRgbResolution (env : PipelineEnv) (st : DriverState) (width height : Nat) :
    ResolutionChangeResult :=
  let st1 := enable_stream st Rs2Stream.RS2_STREAM_COLOR width height
  let st2 := enable_stream st1 Rs2Stream.RS2_STREAM_DEPTH st.depthIntrin.width st.depthIntrin.height
  let enables := [(Rs2Stream.RS2_STREAM_COLOR, width, height),
                  (Rs2Stream.RS2_STREAM_DEPTH, st.depthIntrin.width, st.depthIntrin.height)]
  match pipelineShutdown env st2 with
  | (false, st3) => { ret := false, st := st3, enables := enables }
  | (true, st3) =>
    match pipelineStartup env st3 with
    | (false, st4) => { ret := false, st := st4, enables := enables }
    | (true, st4) => { ret := true, st := updateTransformations st4, enables := enables }

/-- Embedding of `realsense2Driver::getDepthWidth` (lines 605-608). -/
def getDepthWidth (st : DriverState) : Nat := st.depthIntrin.width

/-- Embedding of `realsense2Driver::getDepthHeight` (lines 600-603). -/
def getDepthHeight (st : DriverState) : Nat := st.depthIntrin.height

/-- Embedding of `realsense2Driver::getRgbResolution` (lines 499-504). -/
def getRgbResolution (st : DriverState) : Nat × Nat :=
  (st.colorIntrin.width, st.colorIntrin.height)

/-- Embedding of `realsense2Driver::close` (lines 477-481): calls
`pipelineShutdown`, discards its result, and returns true. -/
def close (env : PipelineEnv) (st : DriverState) : Bool × DriverState :=
  (true, (pipelineShutdown env st).snd)

/-- The vendor exception type `rs2::error`, as far as the control flow is
concerned. -/
inductive RsErr where
  | rs2error
  deriving DecidableEq

/-- Exception behavior of the SDK primitives a call sequence touches:
which calls would throw `rs2::error`. -/
structure SdkBehavior where
  setOptionThrows : RsOption → Bool
  getOptionThrows : RsOption → Bool
  startThrows : Bool
  stopThrows : Bool
  waitThrows : Bool

def sdkSetOption (beh : SdkBehavior) (opt : RsOption) : Except RsErr Unit :=
  if beh.setOptionThrows opt then Except.error RsErr.rs2error else Except.ok ()

def sdkGetOption (beh : SdkBehavior) (opt : RsOption) : Except RsErr Unit :=
  if beh.getOptionThrows opt then Except.error RsErr.rs2error else Except.ok ()

def sdkPipelineStart (beh : SdkBehavior) : Except RsErr Unit :=
  if beh.startThrows then Except.error RsErr.rs2error else Except.ok ()

def sdkPipelineStop (beh : SdkBehavior) : Except RsErr Unit :=
  if beh.stopThrows then Except.error RsErr.rs2error else Except.ok ()

def sdkWaitForFrames (beh : SdkBehavior) : Except RsErr Unit :=
  if beh.waitThrows then Except.error RsErr.rs2error else Except.ok ()

/-- Exception flow of the static helper `setOption` (lines 88-116): the
null and supports guards return false, and the `set_option` call is
wrapped in try/catch, converting a throw into a false return. -/
def setOptionExc (beh : SdkBehavior) (hasSensor supportsOpt : Bool) (opt : RsOption) :
    Except RsErr Bool :=
  if hasSensor = false then Except.ok false
  else if supportsOpt = false then Except.ok false
  else
    match sdkSetOption beh opt with
    | Except.ok _ => Except.ok true
    | Except.error _ => Except.ok false

/-- Exception flow of the static helper `getOption` (lines 118-145). -/
def getOptionExc (beh : SdkBehavior) (hasSensor supportsOpt : Bool) (opt : RsOption) :
    Except RsErr Bool :=
  if hasSensor = false then Except.ok false
  else if supportsOpt = false then Except.ok false
  else
    match sdkGetOption beh opt with
    | Except.ok _ => Except.ok true
    | Except.error _ => Except.ok false

/-- Exception flow of `pipelineStartup` (lines 259-271): try/catch around
`m_pipeline.start`. -/
def pipelineStartupExc (beh : SdkBehavior) : Except RsErr Bool :=
  match sdkPipelineStart beh with
  | Except.ok _ => Except.ok true
  | Except.error _ => Except.ok false

/-- Exception flow of `pipelineShutdown` (lines 273-285): try/catch around
`m_pipeline.stop`. -/
def pipelineShutdownExc (beh : SdkBehavior) : Except RsErr Bool :=
  match sdkPipelineStop beh with
  | Except.ok _ => Except.ok true
  | Except.error _ => Except.ok false

/-- Exception flow of `realsense2Driver::getRgbImage` (lines 668-672): the
`m_pipeline.wait_for_frames()` call is NOT wrapped in any try/catch in
the source, so a throw propagates to the caller; `convertOk` stands for
the boolean result of the subsequent conversion.  The same unguarded
wait opens `getDepthImage` (lines 674-680) and `getImages`
(lines 742-748). -/
def getRgbImageExc (beh : SdkBehavior) (convertOk : Bool) : Except RsErr Bool :=
  match sdkWaitForFrames beh with
  | Except.error e => Except.error e
  | Except.ok _ => Except.ok convertOk

/-- The warm-up loop of `initializeRealsenseDevice` (lines 300-305): a
fixed number of `wait_for_frames` calls with no try/catch around them. -/
def warmupWaits (beh : SdkBehavior) : Nat → Except RsErr Unit
  | 0 => Except.ok ()
  | n + 1 =>
    match sdkWaitForFrames beh with
    | Except.error e => Except.error e
    | Except.ok _ => warmupWaits beh n

/-- Exception flow of `realsense2Driver::initializeRealsenseDevice`
(lines 287-354) up to the warm-up phase: `pipelineStartup` catches its
own exception and reports false; the 30 warm-up waits are unguarded. -/
def initializeRealsenseDeviceExc (beh : SdkBehavior) : Except RsErr Bool :=
  match pipelineStartupExc beh with
  | Except.error e => Except.error e
  | Except.ok false => Except.ok false
  | Except.ok true =>
    match warmupWaits beh 30 with
    | Except.error e => Except.error e
    | Except.ok _ => Except.ok true

/-- Characterization of `hasFeature` success: the call reports the feature
present exactly for the seven identifiers pushed into
`m_supportedFeatures` by the constructor. -/
lemma hasFeature_some_true_iff (f : Int) :
    hasFeature f = some true ↔
      (f = YARP_FEATURE_EXPOSURE ∨ f = YARP_FEATURE_WHITE_BALANCE ∨ f = YARP_FEATURE_GAIN ∨
       f = YARP_FEATURE_FRAME_RATE ∨ f = YARP_FEATURE_SHARPNESS ∨ f = YARP_FEATURE_HUE ∨
       f = YARP_FEATURE_SATURATION) := by
  constructor
  · intro h
    have hrange : ¬ (f < YARP_FEATURE_BRIGHTNESS ∨ f > YARP_FEATURE_NUMBER_OF - 1) := by
      intro hc
      unfold hasFeature at h
      rw [if_pos hc] at h
      exact Option.noConfusion h
    push_neg at hrange
    obtain ⟨h1, h2⟩ := hrange
    simp only [YARP_FEATURE_BRIGHTNESS] at h1
    simp only [YARP_FEATURE_NUMBER_OF] at h2
    have h2' : f ≤ 22 := by omega
    interval_cases f <;> revert h <;> decide
  · rintro (rfl | rfl | rfl | rfl | rfl | rfl | rfl) <;> decide

/-- Membership in the supported-feature vector, spelled out. -/
lemma mem_supportedFeatures_iff (f : Int) :
    f ∈ m_supportedFeatures ↔
      (f = YARP_FEATURE_EXPOSURE ∨ f = YARP_FEATURE_WHITE_BALANCE ∨ f = YARP_FEATURE_GAIN ∨
       f = YARP_FEATURE_FRAME_RATE ∨ f = YARP_FEATURE_SHARPNESS ∨ f = YARP_FEATURE_HUE ∨
       f = YARP_FEATURE_SATURATION) := by
  simp [m_supportedFeatures]

/-- The ten vendor formats the driver's format table recognizes. -/
def supportedFormats : List Rs2Format :=
  [Rs2Format.RS2_FORMAT_RGB8, Rs2Format.RS2_FORMAT_BGR8, Rs2Format.RS2_FORMAT_Z16,
   Rs2Format.RS2_FORMAT_DISPARITY16, Rs2Format.RS2_FORMAT_RGBA8, Rs2Format.RS2_FORMAT_BGRA8,
   Rs2Format.RS2_FORMAT_Y8, Rs2Format.RS2_FORMAT_Y16, Rs2Format.RS2_FORMAT_RAW16,
   Rs2Format.RS2_FORMAT_RAW8]

/-- Claim C7: the format-to-code translation returns the documented
middleware pixel code for each of the ten supported vendor formats and
the invalid marker for every other format, and a capture whose frame
carries an unrecognized format returns failure with the destination
untouched and no pixel data copied. -/
theorem c7_pixformat_table (f : Rs2Format) (colorIntrin : Res) (w h : Nat) (dest : FlexImage) :
    (pixFormatToCode Rs2Format.RS2_FORMAT_RGB8 = VocabPixel.VOCAB_PIXEL_RGB ∧
     pixFormatToCode Rs2Format.RS2_FORMAT_BGR8 = VocabPixel.VOCAB_PIXEL_BGR ∧
     pixFormatToCode Rs2Format.RS2_FORMAT_Z16 = VocabPixel.VOCAB_PIXEL_MONO16 ∧
     pixFormatToCode Rs2Format.RS2_FORMAT_DISPARITY16 = VocabPixel.VOCAB_PIXEL_MONO16 ∧
     pixFormatToCode Rs2Format.RS2_FORMAT_RGBA8 = VocabPixel.VOCAB_PIXEL_RGBA ∧
     pixFormatToCode Rs2Format.RS2_FORMAT_BGRA8 = VocabPixel.VOCAB_PIXEL_BGRA ∧
     pixFormatToCode Rs2Format.RS2_FORMAT_Y8 = VocabPixel.VOCAB_PIXEL_MONO ∧
     pixFormatToCode Rs2Format.RS2_FORMAT_Y16 = VocabPixel.VOCAB_PIXEL_MONO16 ∧
     pixFormatToCode Rs2Format.RS2_FORMAT_RAW16 = VocabPixel.VOCAB_PIXEL_MONO16 ∧
     pixFormatToCode Rs2Format.RS2_FORMAT_RAW8 = VocabPixel.VOCAB_PIXEL_MONO) ∧
    (f ∉ supportedFormats → pixFormatToCode f = VocabPixel.VOCAB_PIXEL_INVALID) ∧
    (pixFormatToCode f = VocabPixel.VOCAB_PIXEL_INVALID →
      getImage colorIntrin { format := f, width := w, height := h } dest =
        { ret := false, dest := dest, copied := false, stampUpdated := false }) := by
  refine ⟨by decide, ?_, ?_⟩
  · intro hf
    revert hf
    cases f <;> decide
  · intro hinv
    cases f <;> first | rfl | exact absurd hinv (by decide)

/-- Claim C7 witness: a concrete unsupported format (YUYV) translates to
the invalid marker and the capture call fails without touching the
destination. -/
theorem c7_witness :
    pixFormatToCode Rs2Format.RS2_FORMAT_YUYV = VocabPixel.VOCAB_PIXEL_INVALID ∧
    getImage { width := 2, height := 2 }
        { format := Rs2Format.RS2_FORMAT_YUYV, width := 2, height := 2 }
        { pixelCode := VocabPixel.VOCAB_PIXEL_MONO, width := 1, height := 1 } =
      { ret := false, dest := { pixelCode := VocabPixel.VOCAB_PIXEL_MONO, width := 1, height := 1 },
        copied := false, stampUpdated := false } :=
  ⟨(c7_pixformat_table Rs2Format.RS2_FORMAT_YUYV { width := 2, height := 2 } 2 2
      { pixelCode := VocabPixel.VOCAB_PIXEL_MONO, width := 1, height := 1 }).2.1 (by decide),
   (c7_pixformat_table Rs2Format.RS2_FORMAT_YUYV { width := 2, height := 2 } 2 2
      { pixelCode := VocabPixel.VOCAB_PIXEL_MONO, width := 1, height := 1 }).2.2 (by decide)⟩

/-- Claim C1 counterexample: with recorded color intrinsics 2x2, a 3x3 RGB8
frame and a destination that starts as a 5x5 MONO image, the capture call
returns failure (the computed sizes 12 and 27 differ) but the destination
is NOT left unmodified: its pixel code and dimensions have been changed
before the size check. -/
theorem c1_counterexample :
    ((getImage { width := 2, height := 2 }
        { format := Rs2Format.RS2_FORMAT_RGB8, width := 3, height := 3 }
        { pixelCode := VocabPixel.VOCAB_PIXEL_MONO, width := 5, height := 5 }).ret = false) ∧
    ¬ ((getImage { width := 2, height := 2 }
        { format := Rs2Format.RS2_FORMAT_RGB8, width := 3, height := 3 }
        { pixelCode := VocabPixel.VOCAB_PIXEL_MONO, width := 5, height := 5 }).dest =
      { pixelCode := VocabPixel.VOCAB_PIXEL_MONO, width := 5, height := 5 }) := by
  decide

/-- Claim C1 (amended): when the raw size computed for the destination
differs from the frame's width * height * bytes-per-pixel, the capture
call returns failure, copies no pixel data and does not update the
stamp, but the destination has already had its pixel code set to the
translated code and been resized to the recorded color-intrinsics
dimensions. -/
theorem c1_size_mismatch_fails_but_modifies (colorIntrin : Res) (frame : VideoFrame)
    (dest : FlexImage)
    (hpc : pixFormatToCode frame.format ≠ VocabPixel.VOCAB_PIXEL_INVALID)
    (hsz : ((dest.setPixelCode (pixFormatToCode frame.format)).resize
        colorIntrin.width colorIntrin.height).getRawImageSize ≠
        frame.width * frame.height * bytesPerPixel frame.format) :
    getImage colorIntrin frame dest =
      { ret := false,
        dest := (dest.setPixelCode (pixFormatToCode frame.format)).resize
          colorIntrin.width colorIntrin.height,
        copied := false, stampUpdated := false } := by
  simp only [getImage]
  rw [if_neg hpc, if_pos hsz]

/-- Claim C1 witness: the amended statement evaluated at the
counterexample input. -/
theorem c1_witness :
    getImage { width := 2, height := 2 }
        { format := Rs2Format.RS2_FORMAT_RGB8, width := 3, height := 3 }
        { pixelCode := VocabPixel.VOCAB_PIXEL_MONO, width := 5, height := 5 } =
      { ret := false, dest := { pixelCode := VocabPixel.VOCAB_PIXEL_RGB, width := 2, height := 2 },
        copied := false, stampUpdated := false } := by
  have h := c1_size_mismatch_fails_but_modifies { width := 2, height := 2 }
      { format := Rs2Format.RS2_FORMAT_RGB8, width := 3, height := 3 }
      { pixelCode := VocabPixel.VOCAB_PIXEL_MONO, width := 5, height := 5 }
      (by decide) (by decide)
  exact h

/-- Claim C8: in every driver state and every environment, including those
where the underlying pipeline stop reports failure, `close` returns
success. -/
theorem c8_close_always_succeeds (env : PipelineEnv) (st : DriverState) :
    (close env st).fst = true := rfl

/-- Claim C9: both resolution-change operations re-enable both streams in
the shared stream configuration: the changed stream at the requested
resolution and the other stream at its previously recorded resolution,
in every environment and state. -/
theorem c9_both_streams_reenabled (env : PipelineEnv) (st : DriverState) (w h : Nat) :
    (setDepthResolution env st w h).enables =
      [(Rs2Stream.RS2_STREAM_COLOR, st.colorIntrin.width, st.colorIntrin.height),
       (Rs2Stream.RS2_STREAM_DEPTH, w, h)] ∧
    (setRgbResolution env st w h).enables =
      [(Rs2Stream.RS2_STREAM_COLOR, w, h),
       (Rs2Stream.RS2_STREAM_DEPTH, st.depthIntrin.width, st.depthIntrin.height)] := by
  constructor
  · simp only [setDepthResolution]
    split
    · rfl
    · split <;> rfl
  · simp only [setRgbResolution]
    split
    · rfl
    · split <;> rfl

/-- When the feature guard fails, `setFeature` returns false with no
option write and an unchanged sensor. -/
lemma setFeature_guard_fail (s : Option Sensor) (f : Int) (v : Rat)
    (h : hasFeature f ≠ some true) :
    setFeature s f v = { ret := false, sensor := s, writes := [] } := by
  unfold setFeature
  cases hhf : hasFeature f with
  | none => rfl
  | some b =>
    cases b with
    | false => rfl
    | true => exact absurd hhf h

/-- When the feature guard fails, `getFeature` returns false with no
option read. -/
lemma getFeature_guard_fail (s : Option Sensor) (f : Int)
    (h : hasFeature f ≠ some true) :
    getFeature s f = { ret := false, value := none, reads := [] } := by
  unfold getFeature
  cases hhf : hasFeature f with
  | none => rfl
  | some b =>
    cases b with
    | false => rfl
    | true => exact absurd hhf h

/-- Claim C4: `hasFeature` fails outside the valid enumeration range,
reports a feature present exactly when it is one of the seven supported
identifiers, and for every identifier outside the supported set
`setFeature` and `getFeature` fail without any sensor-option call. -/
theorem c4_feature_table (f : Int) (s : Option Sensor) (v : Rat) :
    ((f < YARP_FEATURE_BRIGHTNESS ∨ f > YARP_FEATURE_NUMBER_OF - 1) → hasFeature f = none) ∧
    (hasFeature f = some true ↔
      (f = YARP_FEATURE_EXPOSURE ∨ f = YARP_FEATURE_WHITE_BALANCE ∨ f = YARP_FEATURE_GAIN ∨
       f = YARP_FEATURE_FRAME_RATE ∨ f = YARP_FEATURE_SHARPNESS ∨ f = YARP_FEATURE_HUE ∨
       f = YARP_FEATURE_SATURATION)) ∧
    (f ∉ m_supportedFeatures →
      setFeature s f v = { ret := false, sensor := s, writes := [] } ∧
      getFeature s f = { ret := false, value := none, reads := [] }) := by
  refine ⟨?_, hasFeature_some_true_iff f, ?_⟩
  · intro hc
    unfold hasFeature
    rw [if_pos hc]
  · intro hmem
    have hns : hasFeature f ≠ some true := by
      intro h
      exact hmem ((mem_supportedFeatures_iff f).mpr ((hasFeature_some_true_iff f).mp h))
    exact ⟨setFeature_guard_fail s f v hns, getFeature_guard_fail s f hns⟩

/-- A color sensor that supports every option, holds value 0 everywhere
and never throws; used as concrete input for witnesses. -/
def sen0 : Sensor :=
  { supports := fun _ => true, values := fun _ => 0,
    setThrows := fun _ => false, getThrows := fun _ => false }

/-- Claim C4 witness: identifier 25 is outside the enumeration range and
`hasFeature` fails; identifier 9 (iris) is in range but unsupported, and
`setFeature`/`getFeature` fail on it without a sensor-option call. -/
theorem c4_witness :
    hasFeature 25 = none ∧
    setFeature (some sen0) 9 2 = { ret := false, sensor := some sen0, writes := [] } ∧
    getFeature (some sen0) 9 = { ret := false, value := none, reads := [] } :=
  ⟨(c4_feature_table 25 none 0).1 (by decide),
   ((c4_feature_table 9 (some sen0) 2).2.2 (by decide)).1,
   ((c4_feature_table 9 (some sen0) 2).2.2 (by decide)).2⟩

/-- Claim C10: for every supported feature other than white balance and
exposure, `getMode` succeeds and reports MANUAL without performing any
sensor-option read (the local readback variable keeps its initial 0.0). -/
theorem c10_getMode_manual_without_read (s : Option Sensor) (f : Int)
    (hf : f ∈ m_supportedFeatures)
    (h1 : f ≠ YARP_FEATURE_WHITE_BALANCE) (h2 : f ≠ YARP_FEATURE_EXPOSURE) :
    getMode s f = { ret := true, mode := some FeatureMode.MODE_MANUAL, reads := [] } := by
  rw [mem_supportedFeatures_iff] at hf
  rcases hf with rfl | rfl | rfl | rfl | rfl | rfl | rfl
  · exact absurd rfl h2
  · exact absurd rfl h1
  · rfl
  · rfl
  · rfl
  · rfl
  · rfl

/-- Claim C10 witness: `getMode` on gain succeeds with MANUAL and no
sensor-option read. -/
theorem c10_witness :
    getMode (some sen0) YARP_FEATURE_GAIN =
      { ret := true, mode := some FeatureMode.MODE_MANUAL, reads := [] } :=
  c10_getMode_manual_without_read (some sen0) YARP_FEATURE_GAIN (by decide) (by decide) (by decide)

/-- Evaluation facts for the guard helpers at the two auto-capable
features. -/
lemma hasFeature_wb : hasFeature YARP_FEATURE_WHITE_BALANCE = some true := by decide

lemma hasFeature_exposure : hasFeature YARP_FEATURE_EXPOSURE = some true := by decide

lemma hasOnOff_wb : hasOnOff YARP_FEATURE_WHITE_BALANCE = some true := by decide

/-- The `hasOnOff` guard reports an on/off toggle only for white balance:
mirror is in its fixed table but is rejected earlier by `hasFeature`. -/
lemma hasOnOff_some_true_iff (f : Int) :
    hasOnOff f = some true ↔ f = YARP_FEATURE_WHITE_BALANCE := by
  constructor
  · intro h
    unfold hasOnOff at h
    cases hhf : hasFeature f with
    | none => rw [hhf] at h; exact Option.noConfusion h
    | some b =>
      cases b with
      | false => rw [hhf] at h; exact Option.noConfusion h
      | true =>
        rw [hhf] at h
        by_cases hc : f = YARP_FEATURE_WHITE_BALANCE ∨ f = YARP_FEATURE_MIRROR
        · rcases hc with hc | hc
          · exact hc
          · subst hc
            exact absurd hhf (by decide)
        · rw [if_neg hc] at h
          exact Bool.noConfusion (Option.some.inj h)
  · rintro rfl
    exact hasOnOff_wb

/-- For any feature other than white balance, `setActive` fails with no
option write: either the feature guard or the `hasOnOff` guard rejects
it before the switch is reached. -/
lemma setActive_not_wb (s : Option Sensor) (f : Int) (onoff : Bool)
    (h : f ≠ YARP_FEATURE_WHITE_BALANCE) :
    setActive s f onoff = { ret := false, sensor := s, writes := [] } := by
  unfold setActive
  cases hhf : hasFeature f with
  | none => rfl
  | some b =>
    cases b with
    | false => rfl
    | true =>
      cases hoo : hasOnOff f with
      | none => rfl
      | some c =>
        cases c with
        | false => rfl
        | true => exact absurd ((hasOnOff_some_true_iff f).mp hoo) h

/-- For any feature other than white balance, `getActive` fails with no
option read. -/
lemma getActive_not_wb (s : Option Sensor) (f : Int)
    (h : f ≠ YARP_FEATURE_WHITE_BALANCE) :
    getActive s f = { ret := false, isActive := none, reads := [] } := by
  unfold getActive
  cases hhf : hasFeature f with
  | none => rfl
  | some b =>
    cases b with
    | false => rfl
    | true =>
      cases hoo : hasOnOff f with
      | none => rfl
      | some c =>
        cases c with
        | false => rfl
        | true => exact absurd ((hasOnOff_some_true_iff f).mp hoo) h

/-- Claim C3 counterexample: with a color sensor that supports every option
and never throws, `setActive` on exposure still returns failure and
attempts no option write, and `getActive` on exposure fails too, because
the `hasOnOff` guard reports exposure as having no on/off toggle — the
exposure case of the switch is unreachable. -/
theorem c3_counterexample :
    (setActive (some sen0) YARP_FEATURE_EXPOSURE true).ret = false ∧
    (setActive (some sen0) YARP_FEATURE_EXPOSURE true).writes = [] ∧
    (getActive (some sen0) YARP_FEATURE_EXPOSURE).ret = false :=
  ⟨rfl, rfl, rfl⟩

/-- Claim C3 (amended): `setActive` forwards the boolean as the value of
RS2_OPTION_ENABLE_AUTO_WHITE_BALANCE for white balance only, and
`getActive` on white balance reads that option and reports success but
never stores the readback through the caller's boolean (the
`(float&) isActive` cast clobbers the local pointer copy instead); for
exposure and for every other feature both calls fail without touching
the sensor, since the `hasOnOff` guard admits only white balance. -/
theorem c3_active_white_balance_only (s : Option Sensor) (f : Int) (onoff : Bool) :
    (setActive s YARP_FEATURE_WHITE_BALANCE onoff =
      { ret := (setOption s RsOption.RS2_OPTION_ENABLE_AUTO_WHITE_BALANCE
          (if onoff then 1 else 0)).fst,
        sensor := (setOption s RsOption.RS2_OPTION_ENABLE_AUTO_WHITE_BALANCE
          (if onoff then 1 else 0)).snd,
        writes := [(RsOption.RS2_OPTION_ENABLE_AUTO_WHITE_BALANCE, if onoff then 1 else 0)] }) ∧
    (f ≠ YARP_FEATURE_WHITE_BALANCE →
      setActive s f onoff = { ret := false, sensor := s, writes := [] }) ∧
    (∀ sen : Sensor,
      sen.supports RsOption.RS2_OPTION_ENABLE_AUTO_WHITE_BALANCE = true →
      sen.getThrows RsOption.RS2_OPTION_ENABLE_AUTO_WHITE_BALANCE = false →
      getActive (some sen) YARP_FEATURE_WHITE_BALANCE =
        { ret := true, isActive := none,
          reads := [RsOption.RS2_OPTION_ENABLE_AUTO_WHITE_BALANCE] }) ∧
    (f ≠ YARP_FEATURE_WHITE_BALANCE →
      getActive s f = { ret := false, isActive := none, reads := [] }) := by
  refine ⟨rfl, setActive_not_wb s f onoff, ?_, getActive_not_wb s f⟩
  intro sen hsup hthr
  have hopt : getOption (some sen) RsOption.RS2_OPTION_ENABLE_AUTO_WHITE_BALANCE =
      some (sen.values RsOption.RS2_OPTION_ENABLE_AUTO_WHITE_BALANCE) := by
    simp [getOption, hsup, hthr]
  simp [getActive, hasFeature_wb, hasOnOff_wb, hopt]

/-- Claim C3 witness: the amended statement evaluated on concrete inputs:
gain is rejected by both calls, and white balance's `getActive` reads
the option and succeeds without writing the out-parameter. -/
theorem c3_witness :
    setActive (some sen0) YARP_FEATURE_GAIN true =
      { ret := false, sensor := some sen0, writes := [] } ∧
    getActive (some sen0) YARP_FEATURE_GAIN =
      { ret := false, isActive := none, reads := [] } ∧
    getActive (some sen0) YARP_FEATURE_WHITE_BALANCE =
      { ret := true, isActive := none,
        reads := [RsOption.RS2_OPTION_ENABLE_AUTO_WHITE_BALANCE] } := by
  have h := c3_active_white_balance_only (some sen0) YARP_FEATURE_GAIN true
  exact ⟨h.2.1 (by decide), h.2.2.2 (by decide), h.2.2.1 sen0 rfl rfl⟩

/-- A successful `setOption` implies the sensor existed, supported the
option and did not throw, and the stored value was updated. -/
lemma setOption_ok {s : Option Sensor} {opt : RsOption} {v : Rat}
    (h : (setOption s opt v).fst = true) :
    ∃ sen0, s = some sen0 ∧ sen0.supports opt = true ∧ sen0.setThrows opt = false ∧
      (setOption s opt v).snd =
        some { sen0 with values := fun o => if o = opt then v else sen0.values o } := by
  cases s with
  | none => simp [setOption] at h
  | some sen =>
    cases hsup : sen.supports opt with
    | false => simp [setOption, hsup] at h
    | true =>
      cases hthr : sen.setThrows opt with
      | true => simp [setOption, hsup, hthr] at h
      | false => exact ⟨sen, rfl, hsup, hthr, by simp [setOption, hsup, hthr]⟩

/-- Claim C5: for white balance and exposure a successful
`setMode(_, AUTO)` followed by `getMode` yields AUTO (the enable-auto
option reads back 1.0); for every other supported feature `setMode`
fails with no sensor-option write; and `getMode` decodes a readback of
0.0 as MANUAL, 1.0 as AUTO, and anything else as UNKNOWN. -/
theorem c5_mode_roundtrip (s : Option Sensor) (f : Int) (mode : FeatureMode) (sen : Sensor)
    (v : Rat) :
    (f ∈ m_supportedFeatures → f ≠ YARP_FEATURE_WHITE_BALANCE → f ≠ YARP_FEATURE_EXPOSURE →
      setMode s f mode = { ret := false, sensor := s, writes := [] }) ∧
    ((f = YARP_FEATURE_WHITE_BALANCE ∨ f = YARP_FEATURE_EXPOSURE) →
      (setMode s f FeatureMode.MODE_AUTO).ret = true →
      (setMode s f FeatureMode.MODE_AUTO).sensor = some sen →
      sen.getThrows (autoOptionOf f) = false →
      getMode (some sen) f =
        { ret := true, mode := some FeatureMode.MODE_AUTO, reads := [autoOptionOf f] }) ∧
    ((f = YARP_FEATURE_WHITE_BALANCE ∨ f = YARP_FEATURE_EXPOSURE) →
      sen.supports (autoOptionOf f) = true →
      sen.getThrows (autoOptionOf f) = false →
      sen.values (autoOptionOf f) = v →
      getMode (some sen) f =
        { ret := true,
          mode := some (if v = 0 then FeatureMode.MODE_MANUAL
                        else if v = 1 then FeatureMode.MODE_AUTO
                        else FeatureMode.MODE_UNKNOWN),
          reads := [autoOptionOf f] }) := by
  refine ⟨?_, ?_, ?_⟩
  · intro hf h1 h2
    rw [mem_supportedFeatures_iff] at hf
    rcases hf with rfl | rfl | rfl | rfl | rfl | rfl | rfl
    · exact absurd rfl h2
    · exact absurd rfl h1
    · rfl
    · rfl
    · rfl
    · rfl
    · rfl
  · intro hdisj hret hsen hthr
    rcases hdisj with rfl | rfl
    · have hred : setMode s YARP_FEATURE_WHITE_BALANCE FeatureMode.MODE_AUTO =
          { ret := (setOption s RsOption.RS2_OPTION_ENABLE_AUTO_WHITE_BALANCE 1).fst,
            sensor := (setOption s RsOption.RS2_OPTION_ENABLE_AUTO_WHITE_BALANCE 1).snd,
            writes := [(RsOption.RS2_OPTION_ENABLE_AUTO_WHITE_BALANCE, 1)] } := rfl
      rw [hred] at hret hsen
      obtain ⟨sen0, hs, hsup, hsthr, hsnd⟩ := setOption_ok hret
      rw [hsnd] at hsen
      have hupd := Option.some.inj hsen
      simp [autoOptionOf] at hthr
      have hsup' : sen.supports RsOption.RS2_OPTION_ENABLE_AUTO_WHITE_BALANCE = true := by
        rw [← hupd]; exact hsup
      have hval : sen.values RsOption.RS2_OPTION_ENABLE_AUTO_WHITE_BALANCE = 1 := by
        rw [← hupd]; simp
      have hopt : getOption (some sen) RsOption.RS2_OPTION_ENABLE_AUTO_WHITE_BALANCE =
          some 1 := by
        simp [getOption, hsup', hthr, hval]
      norm_num [getMode, hasFeature_wb, hopt, autoOptionOf]
    · have hne : YARP_FEATURE_EXPOSURE ≠ YARP_FEATURE_WHITE_BALANCE := by decide
      have hred : setMode s YARP_FEATURE_EXPOSURE FeatureMode.MODE_AUTO =
          { ret := (setOption s RsOption.RS2_OPTION_ENABLE_AUTO_EXPOSURE 1).fst,
            sensor := (setOption s RsOption.RS2_OPTION_ENABLE_AUTO_EXPOSURE 1).snd,
            writes := [(RsOption.RS2_OPTION_ENABLE_AUTO_EXPOSURE, 1)] } := rfl
      rw [hred] at hret hsen
      obtain ⟨sen0, hs, hsup, hsthr, hsnd⟩ := setOption_ok hret
      rw [hsnd] at hsen
      have hupd := Option.some.inj hsen
      simp [autoOptionOf, hne] at hthr
      have hsup' : sen.supports RsOption.RS2_OPTION_ENABLE_AUTO_EXPOSURE = true := by
        rw [← hupd]; exact hsup
      have hval : sen.values RsOption.RS2_OPTION_ENABLE_AUTO_EXPOSURE = 1 := by
        rw [← hupd]; simp
      have hopt : getOption (some sen) RsOption.RS2_OPTION_ENABLE_AUTO_EXPOSURE = some 1 := by
        simp [getOption, hsup', hthr, hval]
      norm_num [getMode, hasFeature_exposure, hopt, autoOptionOf, hne]
  · intro hdisj hsup hthr hval
    rcases hdisj with rfl | rfl
    · simp [autoOptionOf] at hsup hthr hval
      have hopt : getOption (some sen) RsOption.RS2_OPTION_ENABLE_AUTO_WHITE_BALANCE =
          some v := by
        simp [getOption, hsup, hthr, hval]
      simp [getMode, hasFeature_wb, hopt, autoOptionOf]
    · have hne : YARP_FEATURE_EXPOSURE ≠ YARP_FEATURE_WHITE_BALANCE := by decide
      simp [autoOptionOf, hne] at hsup hthr hval
      have hopt : getOption (some sen) RsOption.RS2_OPTION_ENABLE_AUTO_EXPOSURE = some v := by
        simp [getOption, hsup, hthr, hval]
      simp [getMode, hasFeature_exposure, hopt, autoOptionOf, hne]

/-- The color sensor state after `setMode(white balance, AUTO)` succeeds
on `sen0`. -/
def sen0Auto : Sensor :=
  { supports := fun _ => true,
    values := fun o =>
      if o = RsOption.RS2_OPTION_ENABLE_AUTO_WHITE_BALANCE then (1 : Rat) else sen0.values o,
    setThrows := fun _ => false, getThrows := fun _ => false }

/-- Claim C5 witness: on the all-supporting sensor, `setMode(white
balance, AUTO)` succeeds and the subsequent `getMode` reads AUTO back. -/
theorem c5_witness :
    getMode (setMode (some sen0) YARP_FEATURE_WHITE_BALANCE FeatureMode.MODE_AUTO).sensor
        YARP_FEATURE_WHITE_BALANCE =
      { ret := true, mode := some FeatureMode.MODE_AUTO,
        reads := [RsOption.RS2_OPTION_ENABLE_AUTO_WHITE_BALANCE] } :=
  (c5_mode_roundtrip (some sen0) YARP_FEATURE_WHITE_BALANCE FeatureMode.MODE_AUTO sen0Auto 0).2.1
    (Or.inl rfl) rfl rfl rfl

/-- Claim C6: if `setDepthResolution(w, h)` succeeds, then `getDepthWidth`
and `getDepthHeight` immediately return `w` and `h`, and the color
stream's configured resolution as returned by `getRgbResolution` is
unchanged. -/
theorem c6_depth_resolution (env : PipelineEnv) (st : DriverState) (w h : Nat)
    (hret : (setDepthResolution env st w h).ret = true) :
    getDepthWidth (setDepthResolution env st w h).st = w ∧
    getDepthHeight (setDepthResolution env st w h).st = h ∧
    getRgbResolution (setDepthResolution env st w h).st = getRgbResolution st := by
  cases hstop : env.stopFails with
  | true =>
    rw [setDepthResolution] at hret
    simp [pipelineShutdown, hstop] at hret
  | false =>
    rw [setDepthResolution] at hret ⊢
    simp only [pipelineShutdown, hstop, enable_stream, pipelineStartup,
      Bool.false_eq_true, if_false] at hret ⊢
    split at hret
    next hstart =>
      simp at hret
    next hstart =>
      simp only [updateTransformations, getDepthWidth, getDepthHeight, getRgbResolution]
      split at hstart
      next => simp at hstart
      next =>
        injection hstart with h1 h2
        subst h2
        simp

/-- Claim C6 witness: a concrete state and environment in which the call
succeeds and the conclusion holds. -/
theorem c6_witness :
    getDepthWidth (setDepthResolution
        { startFails := fun _ => false, stopFails := false }
        { cfg := { colorRes := { width := 640, height := 480 },
                   depthRes := { width := 640, height := 480 } },
          running := true,
          activeColor := { width := 640, height := 480 },
          activeDepth := { width := 640, height := 480 },
          colorIntrin := { width := 640, height := 480 },
          depthIntrin := { width := 640, height := 480 } } 320 240).st = 320 :=
  (c6_depth_resolution { startFails := fun _ => false, stopFails := false }
      { cfg := { colorRes := { width := 640, height := 480 },
                 depthRes := { width := 640, height := 480 } },
        running := true,
        activeColor := { width := 640, height := 480 },
        activeDepth := { width := 640, height := 480 },
        colorIntrin := { width := 640, height := 480 },
        depthIntrin := { width := 640, height := 480 } } 320 240 rfl).1

/-- The SDK behavior in which only `wait_for_frames` throws. -/
def behWaitThrows : SdkBehavior :=
  { setOptionThrows := fun _ => false, getOptionThrows := fun _ => false,
    startThrows := false, stopThrows := false, waitThrows := true }

/-- Claim C2 counterexample: with an SDK whose `wait_for_frames` throws,
the vendor error propagates out of the capture call `getRgbImage`
(the wait at line 670 has no surrounding try/catch), so the call does
not convert it into a boolean failure. -/
theorem c2_counterexample :
    getRgbImageExc behWaitThrows true = Except.error RsErr.rs2error ∧
    ¬ ∃ b, getRgbImageExc behWaitThrows true = Except.ok b := by
  refine ⟨rfl, ?_⟩
  rintro ⟨b, hb⟩
  rw [show getRgbImageExc behWaitThrows true = Except.error RsErr.rs2error from rfl] at hb
  exact Except.noConfusion hb

/-- A throwing warm-up wait makes the whole warm-up loop propagate the
vendor error. -/
lemma warmupWaits_throws (beh : SdkBehavior) (hw : beh.waitThrows = true) (n : Nat) :
    warmupWaits beh (n + 1) = Except.error RsErr.rs2error := by
  simp [warmupWaits, sdkWaitForFrames, hw]

/-- Claim C2 (amended): only the option helpers `setOption`/`getOption`
and `pipelineStartup`/`pipelineShutdown` wrap their SDK call in
try/catch and always return a boolean; the frame wait in the capture
calls and the warm-up loop of `initializeRealsenseDevice` are not
wrapped, so a vendor error thrown there propagates out of the capture
call and out of open's initialization. -/
theorem c2_exception_flow (beh : SdkBehavior) (hs so convertOk : Bool) (opt : RsOption) :
    (∃ b, setOptionExc beh hs so opt = Except.ok b) ∧
    (∃ b, getOptionExc beh hs so opt = Except.ok b) ∧
    (∃ b, pipelineStartupExc beh = Except.ok b) ∧
    (∃ b, pipelineShutdownExc beh = Except.ok b) ∧
    (beh.waitThrows = true → getRgbImageExc beh convertOk = Except.error RsErr.rs2error) ∧
    (beh.startThrows = false → beh.waitThrows = true →
      initializeRealsenseDeviceExc beh = Except.error RsErr.rs2error) := by
  refine ⟨?_, ?_, ?_, ?_, ?_, ?_⟩
  · cases hs with
    | false => exact ⟨false, rfl⟩
    | true =>
      cases so with
      | false => exact ⟨false, rfl⟩
      | true =>
        cases hb : beh.setOptionThrows opt with
        | true => exact ⟨false, by simp [setOptionExc, sdkSetOption, hb]⟩
        | false => exact ⟨true, by simp [setOptionExc, sdkSetOption, hb]⟩
  · cases hs with
    | false => exact ⟨false, rfl⟩
    | true =>
      cases so with
      | false => exact ⟨false, rfl⟩
      | true =>
        cases hb : beh.getOptionThrows opt with
        | true => exact ⟨false, by simp [getOptionExc, sdkGetOption, hb]⟩
        | false => exact ⟨true, by simp [getOptionExc, sdkGetOption, hb]⟩
  · cases hb : beh.startThrows with
    | true => exact ⟨false, by simp [pipelineStartupExc, sdkPipelineStart, hb]⟩
    | false => exact ⟨true, by simp [pipelineStartupExc, sdkPipelineStart, hb]⟩
  · cases hb : beh.stopThrows with
    | true => exact ⟨false, by simp [pipelineShutdownExc, sdkPipelineStop, hb]⟩
    | false => exact ⟨true, by simp [pipelineShutdownExc, sdkPipelineStop, hb]⟩
  · intro hw
    simp [getRgbImageExc, sdkWaitForFrames, hw]
  · intro hstart hw
    have h30 : warmupWaits beh 30 = Except.error RsErr.rs2error := warmupWaits_throws beh hw 29
    simp [initializeRealsenseDeviceExc, pipelineStartupExc, sdkPipelineStart, hstart, h30]

/-- Claim C2 witness: the amended statement at the concrete behavior whose
frame wait throws: the error escapes both the capture call and the
warm-up phase of open. -/
theorem c2_witness :
    getRgbImageExc behWaitThrows true = Except.error RsErr.rs2error ∧
    initializeRealsenseDeviceExc behWaitThrows = Except.error RsErr.rs2error :=
  ⟨(c2_exception_flow behWaitThrows true true true RsOption.RS2_OPTION_EXPOSURE).2.2.2.2.1 rfl,
   (c2_exception_flow behWaitThrows true true true RsOption.RS2_OPTION_EXPOSURE).2.2.2.2.2 rfl rfl⟩

end Realsense2
